import Mathlib

/-!
Shallow embedding of the fixify front-end client (React/TypeScript):
the submission client (`src/services/api.ts`), the dashboard submission
handler (`src/pages/Dashboard.tsx`, `handleVideoSubmit`) and the video
recorder component (`src/components/VideoRecorder.tsx`).

Browser blobs are modelled as byte lists with a declared content type;
the nondeterministic outside world (what `fetch` does, whether the
user-supplied submission callback resolves or rejects) is passed in as an
explicit outcome value, and each operation returns a record of its
observable effects (whether the network was contacted, what was attached
to the form, the timeout armed, the final result).
-/

/-- A browser Blob: a sequence of bytes together with a declared content
type (the `type` property). `new Blob(chunks, { type: t })` concatenates
the chunk bytes and declares type `t`. -/
structure Blob where
  data : List Nat
  type : String
deriving DecidableEq

/-- `blob.size` in JS: the number of bytes. -/
def Blob.size (b : Blob) : Nat :=
  b.data.length

/-- A browser File as built by `new File([blob], name, { type })`:
the blob's bytes under a filename and a declared content type. -/
structure File where
  name : String
  type : String
  data : List Nat
deriving DecidableEq

/-- The `data` field of the analysis service's success response
(`VideoAnalysisResponse.data` in `api.ts`). -/
structure AnalysisData where
  originalName : String
  fileSize : Nat
  fileSizeInMB : Rat
  analysis : String
  analysisDate : String
deriving DecidableEq

/-- `VideoAnalysisResponse` from `api.ts`: the parsed JSON body of a
successful upload. -/
structure VideoAnalysisResponse where
  success : Bool
  message : String
  data : AnalysisData
deriving DecidableEq

/-- Report status union from `api.ts`: `'pending' | 'reviewing' | 'completed'`. -/
inductive Status where
  | pending
  | reviewing
  | completed
deriving DecidableEq

/-- The `Report` interface from `api.ts`. Timestamps are modelled as
naturals (milliseconds, as produced by `Date.now()`); `videoSize` is the
size in megabytes, a rational since the code divides byte counts by
1024·1024. Optional fields model the TS `?` fields. -/
structure Report where
  id : String
  description : String
  status : Status
  submittedAt : Nat
  videoSize : Rat
  analysis : Option String
  analysisDate : Option String
deriving DecidableEq

/-- The distinct failure channels of `uploadVideoForAnalysis`, tagged by
the throw site in the code: the pre-network blob check, the
`AbortError` branch of the catch (timeout), the `!response.ok` throw
(service error), and the remaining transport / non-Error throws
(network error). -/
inductive UploadError where
  | validation (msg : String)
  | timeout (msg : String)
  | service (msg : String)
  | network (msg : String)
deriving DecidableEq

/-- What the awaited `fetch` call (plus response-body parsing) does on one
upload. `ok status errMessage resp` is a response that arrived: `status`
is the HTTP status; when the status is not 2xx, `errMessage` is the
`message` field of the parsed error body (`none` when parsing failed or
the field was absent); when the status is 2xx, `resp` is the parsed
success body. `abortError` is a rejection whose error has name
`AbortError` (the armed timeout fired). `otherError msg` is any other
thrown `Error` (transport failure, or a success body that failed to
parse). `nonErrorThrow` is a thrown non-`Error` value. -/
inductive FetchOutcome where
  | ok (status : Nat) (errMessage : Option String) (resp : VideoAnalysisResponse)
  | abortError
  | otherError (msg : String)
  | nonErrorThrow
deriving DecidableEq

/-- The observable effects of one call of `uploadVideoForAnalysis`:
whether `fetch` was invoked, the file and description attached to the
form data (when built), the abort timeout armed (milliseconds), and the
returned value or thrown error. -/
structure UploadCall where
  fetchCalled : Bool
  file : Option File
  formDescription : Option String
  timeoutMs : Option Nat
  result : Except UploadError VideoAnalysisResponse

/-- `response.ok` in the Fetch API: status in the range 200–299. -/
def responseOk (status : Nat) : Bool :=
  decide (200 ≤ status) && decide (status ≤ 299)

/-- The message thrown on a non-2xx response:
`errorData.message || !$HTTP error! status: ...!$` — the parsed body's
message when present and non-empty (JS truthiness), else the generic
status message. -/
def serviceErrorMessage (status : Nat) (errMessage : Option String) : String :=
  match errMessage with
  | some m => if m = "" then "HTTP error! status: " ++ toString status else m
  | none => "HTTP error! status: " ++ toString status

/-- The delay passed to `setTimeout` before `controller.abort()` in
`uploadVideoForAnalysis`: 120000 ms (2 minutes). -/
def uploadTimeoutMs : Nat := 120000

/-- `ApiService.uploadVideoForAnalysis` from `api.ts`.
It first validates the blob (`!videoBlob || videoBlob.size === 0`)
and throws before touching the network when that fails; otherwise it
builds `new File([videoBlob], 'video.mp4', { type: 'video/mp4' })`,
appends it and the description to the form, arms a 120000 ms abort
timeout, performs the fetch and folds the outcome through the
try/catch of the code. -/
def uploadVideoForAnalysis (videoBlob : Option Blob) (description : String)
    (outcome : FetchOutcome) : UploadCall :=
  match videoBlob with
  | none =>
    { fetchCalled := false
      file := none
      formDescription := none
      timeoutMs := none
      result := Except.error (UploadError.validation "Invalid video blob: empty or missing") }
  | some blob =>
    if blob.size = 0 then
      { fetchCalled := false
        file := none
        formDescription := none
        timeoutMs := none
        result := Except.error (UploadError.validation "Invalid video blob: empty or missing") }
    else
      let videoFile : File := { name := "video.mp4", type := "video/mp4", data := blob.data }
      { fetchCalled := true
        file := some videoFile
        formDescription := some description
        timeoutMs := some uploadTimeoutMs
        result :=
          match outcome with
          | FetchOutcome.ok status errMessage resp =>
            if responseOk status then
              Except.ok resp
            else
              Except.error (UploadError.service (serviceErrorMessage status errMessage))
          | FetchOutcome.abortError =>
            Except.error (UploadError.timeout
              "Request timeout - video analysis is taking longer than expected")
          | FetchOutcome.otherError msg =>
            Except.error (UploadError.network msg)
          | FetchOutcome.nonErrorThrow =>
            Except.error (UploadError.network "Network error occurred") }

/-- What the awaited `fetch` of `testConnection` does: a response with a
status plus whether its body parses as JSON, or a thrown error. -/
inductive TestOutcome where
  | response (status : Nat) (jsonParses : Bool)
  | threw
deriving DecidableEq

/-- `ApiService.testConnection` from `api.ts`: GET the health-check path;
return `true` when `response.ok` and the body parses (`await
response.json()`; a parse failure is caught by the outer catch), `false`
on a non-ok status, `false` when the request throws. Total by
construction: no outcome propagates an exception. -/
def testConnection : TestOutcome → Bool
  | TestOutcome.response status jsonParses =>
    if responseOk status then jsonParses else false
  | TestOutcome.threw => false

/-! ## Dashboard submission handler (`Dashboard.tsx`) -/

/-- The temporary report created at the start of `handleVideoSubmit`:
id `Date.now().toString()`, the given description, status pending,
`submittedAt` now, `videoSize` the blob size divided by 1024·1024. -/
def mkTempReport (now : Nat) (blobSize : Nat) (description : String) : Report :=
  { id := toString now
    description := description
    status := Status.pending
    submittedAt := now
    videoSize := (blobSize : Rat) / (1024 * 1024)
    analysis := none
    analysisDate := none }

/-- The `updatedReport` built in the success branch of
`handleVideoSubmit`: the temp report with status completed and the
analysis fields copied from the response data. -/
def completeReport (tempReport : Report) (response : VideoAnalysisResponse) : Report :=
  { tempReport with
    status := Status.completed
    analysis := some response.data.analysis
    analysisDate := some response.data.analysisDate }

/-- The mapping function of the success branch:
`report.id === tempReport.id ? updatedReport : report`. -/
def replaceById (tid : String) (updated : Report) (report : Report) : Report :=
  if report.id = tid then updated else report

/-- The mapping function of both failure branches:
`report.id === X ? { ...report, status: 'reviewing' } : report`. -/
def updateStatusById (tid : String) (st : Status) (report : Report) : Report :=
  if report.id = tid then { report with status := st } else report

/-- How one awaited `apiService.uploadVideoForAnalysis` call ends, as seen
by `handleVideoSubmit`: the promise resolved with a response, or it
rejected (threw). -/
inductive UploadOutcome where
  | resolved (response : VideoAnalysisResponse)
  | threw
deriving DecidableEq

/-- `handleVideoSubmit` from `Dashboard.tsx`, acting on the `reports`
list. It prepends a temp report with status pending, then: on a resolved
response with `success`, maps the list replacing the report whose id is
`tempReport.id` by the completed report; on a resolved response without
`success`, maps setting that report's status to reviewing; when the
upload throws, the catch block maps comparing each id against a FRESH
`Date.now().toString()` — the time when the catch runs (`catchNow`),
faithfully reproducing line 112 of the source. -/
def handleVideoSubmit (prev : List Report) (now blobSize : Nat) (description : String)
    (outcome : UploadOutcome) (catchNow : Nat) : List Report :=
  let tempReport := mkTempReport now blobSize description
  let reports1 := tempReport :: prev
  match outcome with
  | UploadOutcome.resolved response =>
    if response.success then
      reports1.map (replaceById tempReport.id (completeReport tempReport response))
    else
      reports1.map (updateStatusById tempReport.id Status.reviewing)
  | UploadOutcome.threw =>
    reports1.map (updateStatusById (toString catchNow) Status.reviewing)

/-! ## Video recorder component (`VideoRecorder.tsx`) -/

/-- The format preference list probed by `startRecording`
(`supportedFormats` in the source, in order). -/
def supportedFormats : List String :=
  [ "video/webm;codecs=vp9"
  , "video/webm;codecs=vp8"
  , "video/webm"
  , "video/mp4"
  , "video/ogg;codecs=theora"
  , "video/ogg" ]

/-- The format-selection loop of `startRecording`: walk the preference
list, take the first format the capability predicate supports
(`options.mimeType = format; break`), leave the option unset (`none`)
when none is supported. -/
def selectMimeType (isTypeSupported : String → Bool) : Option String :=
  supportedFormats.find? isTypeSupported

/-- The `onstop` handler of the recorder: from the buffered chunks it
builds `blob` with the recorder's own mime type (falling back to
`video/webm` when that is empty, JS `mediaRecorder.mimeType || ...`)
and `finalBlob` with the fixed type `video/mp4`; `finalBlob` is what is
kept as the recorded blob. Returns `(blob, finalBlob)`. -/
def recorderOnStop (chunks : List Blob) (recorderMimeType : String) : Blob × Blob :=
  let mimeType := if recorderMimeType = "" then "video/webm" else recorderMimeType
  let blob : Blob := { data := (chunks.map Blob.data).flatten, type := mimeType }
  let finalBlob : Blob := { data := (chunks.map Blob.data).flatten, type := "video/mp4" }
  (blob, finalBlob)

/-- JS `String.prototype.trim`: the string with leading and trailing
whitespace removed, modelled directly on the character list so that it
evaluates inside the kernel. -/
def jsTrim (s : String) : String :=
  String.mk (((s.data.dropWhile Char.isWhitespace).reverse.dropWhile
    Char.isWhitespace).reverse)

/-- The component state of `VideoRecorder` that `handleSubmit` touches. -/
structure RecorderState where
  recordedBlob : Option Blob
  recordedVideoUrl : Option String
  description : String
  isSubmitting : Bool
deriving DecidableEq

/-- Which toast `handleSubmit` fires on a given path. -/
inductive ToastKind where
  | missingInformation
  | reportSubmitted
  | submissionFailed
deriving DecidableEq

/-- Whether the awaited `onVideoSubmit` callback resolves or rejects. -/
inductive SubmitOutcome where
  | resolves
  | rejects
deriving DecidableEq

/-- The observable effects of one `handleSubmit` call: the state left
behind, whether the `onVideoSubmit` callback was invoked and with which
arguments, and the toast shown. -/
structure SubmitStep where
  state : RecorderState
  calledCallback : Bool
  callbackArgs : Option (Blob × String)
  toast : ToastKind
deriving DecidableEq

/-- `handleSubmit` from `VideoRecorder.tsx`. The guard
`!recordedBlob || !description.trim()` returns early with the
Missing-Information toast and no callback invocation; otherwise the
callback is awaited on `(recordedBlob, description.trim())`: on resolve
the url, blob and description are cleared; on reject only the toast
fires; `isSubmitting` ends false on every path (the `finally`). -/
def handleSubmit (s : RecorderState) (outcome : SubmitOutcome) : SubmitStep :=
  match s.recordedBlob with
  | none =>
    { state := s
      calledCallback := false
      callbackArgs := none
      toast := ToastKind.missingInformation }
  | some blob =>
    if jsTrim s.description = "" then
      { state := s
        calledCallback := false
        callbackArgs := none
        toast := ToastKind.missingInformation }
    else
      match outcome with
      | SubmitOutcome.resolves =>
        { state := { s with
            recordedVideoUrl := none
            recordedBlob := none
            description := ""
            isSubmitting := false }
          calledCallback := true
          callbackArgs := some (blob, jsTrim s.description)
          toast := ToastKind.reportSubmitted }
      | SubmitOutcome.rejects =>
        { state := { s with isSubmitting := false }
          calledCallback := true
          callbackArgs := some (blob, jsTrim s.description)
          toast := ToastKind.submissionFailed }

/-! ## Theorems -/

/-- C5: for every call of `uploadVideoForAnalysis` with a null media
object or a media object of size zero, the call fails with the
validation error and the fetch is never invoked. -/
theorem upload_validation_blocks_fetch (videoBlob : Option Blob) (description : String)
    (outcome : FetchOutcome)
    (h : videoBlob = none ∨ ∃ b, videoBlob = some b ∧ b.size = 0) :
    (uploadVideoForAnalysis videoBlob description outcome).fetchCalled = false ∧
    (uploadVideoForAnalysis videoBlob description outcome).result =
      Except.error (UploadError.validation "Invalid video blob: empty or missing") := by
  rcases h with h | ⟨b, hb, hsize⟩
  · subst h
    exact ⟨rfl, rfl⟩
  · subst hb
    simp [uploadVideoForAnalysis, hsize]

/-- Witness for C5: the zero-length blob case at a concrete input. -/
theorem upload_validation_blocks_fetch_witness :
    ((some { data := [], type := "video/webm" } : Option Blob) = none ∨
      ∃ b, (some { data := [], type := "video/webm" } : Option Blob) = some b ∧ b.size = 0) ∧
    ((uploadVideoForAnalysis (some { data := [], type := "video/webm" }) "leak"
        FetchOutcome.abortError).fetchCalled = false ∧
     (uploadVideoForAnalysis (some { data := [], type := "video/webm" }) "leak"
        FetchOutcome.abortError).result =
      Except.error (UploadError.validation "Invalid video blob: empty or missing")) :=
  ⟨Or.inr ⟨_, rfl, rfl⟩,
   upload_validation_blocks_fetch _ _ _ (Or.inr ⟨_, rfl, rfl⟩)⟩

/-- C6: every `uploadVideoForAnalysis` call that reaches the network arms
the abort timer with exactly 120000 ms, and when the request ends by that
abort (an `AbortError`) the call fails with the timeout error, which is a
different outcome from every service error and every network error. -/
theorem upload_timeout_armed_and_distinct (blob : Blob) (description : String)
    (outcome : FetchOutcome) (h : blob.size ≠ 0) :
    (uploadVideoForAnalysis (some blob) description outcome).timeoutMs = some 120000 ∧
    (outcome = FetchOutcome.abortError →
      (uploadVideoForAnalysis (some blob) description outcome).result =
        Except.error (UploadError.timeout
          "Request timeout - video analysis is taking longer than expected") ∧
      (∀ m, (uploadVideoForAnalysis (some blob) description outcome).result ≠
        Except.error (UploadError.service m)) ∧
      (∀ m, (uploadVideoForAnalysis (some blob) description outcome).result ≠
        Except.error (UploadError.network m))) := by
  constructor
  · simp [uploadVideoForAnalysis, h, uploadTimeoutMs]
  · intro ho
    subst ho
    simp [uploadVideoForAnalysis, h]

/-- Witness for C6 at a one-byte blob and the abort outcome. -/
theorem upload_timeout_armed_and_distinct_witness :
    (Blob.size { data := [7], type := "video/webm" } ≠ 0) ∧
    ((uploadVideoForAnalysis (some { data := [7], type := "video/webm" }) "leak"
        FetchOutcome.abortError).timeoutMs = some 120000 ∧
     (FetchOutcome.abortError = FetchOutcome.abortError →
      (uploadVideoForAnalysis (some { data := [7], type := "video/webm" }) "leak"
          FetchOutcome.abortError).result =
        Except.error (UploadError.timeout
          "Request timeout - video analysis is taking longer than expected") ∧
      (∀ m, (uploadVideoForAnalysis (some { data := [7], type := "video/webm" }) "leak"
          FetchOutcome.abortError).result ≠
        Except.error (UploadError.service m)) ∧
      (∀ m, (uploadVideoForAnalysis (some { data := [7], type := "video/webm" }) "leak"
          FetchOutcome.abortError).result ≠
        Except.error (UploadError.network m)))) :=
  ⟨by decide, upload_timeout_armed_and_distinct _ _ _ (by decide)⟩

/-- C7: `testConnection` returns true on an HTTP 2xx response (whose body
parses), false on any non-2xx status (in particular 500), and false when
the request throws; being a total function into `Bool` it propagates no
exception. -/
theorem testConnection_behaviour (status : Nat) (jsonParses : Bool) :
    (200 ≤ status → status ≤ 299 → jsonParses = true →
      testConnection (TestOutcome.response status jsonParses) = true) ∧
    (status < 200 ∨ 300 ≤ status →
      testConnection (TestOutcome.response status jsonParses) = false) ∧
    testConnection TestOutcome.threw = false := by
  refine ⟨?_, ?_, rfl⟩
  · intro h1 h2 h3
    have hok : responseOk status = true := by
      simp only [responseOk, Bool.and_eq_true, decide_eq_true_eq]
      exact ⟨h1, h2⟩
    simp [testConnection, hok, h3]
  · intro h
    have hok : responseOk status = false := by
      simp only [responseOk, Bool.and_eq_false_iff, decide_eq_false_iff_not]
      omega
    simp [testConnection, hok]

/-- Witness for C7 at statuses 200 and 500 and the thrown case. -/
theorem testConnection_behaviour_witness :
    ((200 : Nat) ≤ 200 ∧ (200 : Nat) ≤ 299 ∧ ((500 : Nat) < 200 ∨ (300 : Nat) ≤ 500)) ∧
    testConnection (TestOutcome.response 200 true) = true ∧
    testConnection (TestOutcome.response 500 true) = false ∧
    testConnection TestOutcome.threw = false :=
  ⟨⟨by decide, by decide, by decide⟩,
   (testConnection_behaviour 200 true).1 (by decide) (by decide) rfl,
   (testConnection_behaviour 500 true).2.1 (by decide),
   (testConnection_behaviour 500 true).2.2⟩

/-- A non-empty blob is attached by the upload as the file `video.mp4`
with declared type `video/mp4` and the blob's own bytes. -/
theorem upload_file_of_size_ne (blob : Blob) (description : String) (outcome : FetchOutcome)
    (h : blob.size ≠ 0) :
    (uploadVideoForAnalysis (some blob) description outcome).file =
      some { name := "video.mp4", type := "video/mp4", data := blob.data } := by
  simp [uploadVideoForAnalysis, h]

/-- C8: the final blob produced by the recorder's stop handler has the
canonical declared type `video/mp4`, its bytes are exactly the
concatenation of the buffered chunks — identical to the bytes of the
blob built with the capture container's own type — and an upload of it
attaches the file under the canonical name `video.mp4` with declared
type `video/mp4` and the same bytes. -/
theorem recording_canonical_type (chunks : List Blob) (recorderMimeType : String)
    (description : String) (outcome : FetchOutcome) :
    (recorderOnStop chunks recorderMimeType).2.type = "video/mp4" ∧
    (recorderOnStop chunks recorderMimeType).2.data = (chunks.map Blob.data).flatten ∧
    (recorderOnStop chunks recorderMimeType).2.data =
      (recorderOnStop chunks recorderMimeType).1.data ∧
    ((recorderOnStop chunks recorderMimeType).2.size ≠ 0 →
      (uploadVideoForAnalysis (some (recorderOnStop chunks recorderMimeType).2)
          description outcome).file =
        some { name := "video.mp4", type := "video/mp4",
               data := (recorderOnStop chunks recorderMimeType).2.data }) := by
  refine ⟨rfl, rfl, rfl, ?_⟩
  intro h
  exact upload_file_of_size_ne _ _ _ h

/-- Witness for C8 on two concrete chunks. -/
theorem recording_canonical_type_witness :
    (Blob.size (recorderOnStop
        [{ data := [1, 2], type := "video/webm" }, { data := [3], type := "video/webm" }]
        "video/webm;codecs=vp9").2 ≠ 0) ∧
    ((recorderOnStop
        [{ data := [1, 2], type := "video/webm" }, { data := [3], type := "video/webm" }]
        "video/webm;codecs=vp9").2.type = "video/mp4" ∧
     (recorderOnStop
        [{ data := [1, 2], type := "video/webm" }, { data := [3], type := "video/webm" }]
        "video/webm;codecs=vp9").2.data =
      (([{ data := [1, 2], type := "video/webm" },
         { data := [3], type := "video/webm" }] : List Blob).map Blob.data).flatten ∧
     (recorderOnStop
        [{ data := [1, 2], type := "video/webm" }, { data := [3], type := "video/webm" }]
        "video/webm;codecs=vp9").2.data =
      (recorderOnStop
        [{ data := [1, 2], type := "video/webm" }, { data := [3], type := "video/webm" }]
        "video/webm;codecs=vp9").1.data ∧
     ((recorderOnStop
        [{ data := [1, 2], type := "video/webm" }, { data := [3], type := "video/webm" }]
        "video/webm;codecs=vp9").2.size ≠ 0 →
      (uploadVideoForAnalysis
        (some (recorderOnStop
          [{ data := [1, 2], type := "video/webm" }, { data := [3], type := "video/webm" }]
          "video/webm;codecs=vp9").2) "leak" FetchOutcome.nonErrorThrow).file =
        some { name := "video.mp4", type := "video/mp4",
               data := (recorderOnStop
                 [{ data := [1, 2], type := "video/webm" },
                  { data := [3], type := "video/webm" }]
                 "video/webm;codecs=vp9").2.data })) :=
  ⟨by decide,
   recording_canonical_type
     [{ data := [1, 2], type := "video/webm" }, { data := [3], type := "video/webm" }]
     "video/webm;codecs=vp9" "leak" FetchOutcome.nonErrorThrow⟩

/-- C9: for every capability predicate, the selected recorder mime type
is the first supported format of the fixed descending preference list,
and it is left unset (`none`, platform default) when the predicate
rejects every format in the list. -/
theorem selectMimeType_first_supported (isTypeSupported : String → Bool) :
    selectMimeType isTypeSupported =
      (if isTypeSupported "video/webm;codecs=vp9" then some "video/webm;codecs=vp9"
       else if isTypeSupported "video/webm;codecs=vp8" then some "video/webm;codecs=vp8"
       else if isTypeSupported "video/webm" then some "video/webm"
       else if isTypeSupported "video/mp4" then some "video/mp4"
       else if isTypeSupported "video/ogg;codecs=theora" then some "video/ogg;codecs=theora"
       else if isTypeSupported "video/ogg" then some "video/ogg"
       else none) := by
  cases h1 : isTypeSupported "video/webm;codecs=vp9" <;>
  cases h2 : isTypeSupported "video/webm;codecs=vp8" <;>
  cases h3 : isTypeSupported "video/webm" <;>
  cases h4 : isTypeSupported "video/mp4" <;>
  cases h5 : isTypeSupported "video/ogg;codecs=theora" <;>
  cases h6 : isTypeSupported "video/ogg" <;>
  simp [selectMimeType, supportedFormats, List.find?, h1, h2, h3, h4, h5, h6]

/-- C3: when the description trims to empty (it is empty or
whitespace-only) or no recorded media object is present, `handleSubmit`
never invokes the submission callback and shows the
Missing-Information validation toast instead. -/
theorem handleSubmit_validation (s : RecorderState) (outcome : SubmitOutcome)
    (h : jsTrim s.description = "" ∨ s.recordedBlob = none) :
    (handleSubmit s outcome).calledCallback = false ∧
    (handleSubmit s outcome).callbackArgs = none ∧
    (handleSubmit s outcome).toast = ToastKind.missingInformation := by
  rcases h with h | h
  · cases hb : s.recordedBlob <;> simp [handleSubmit, hb, h]
  · simp [handleSubmit, h]

/-- Witness for C3 at a whitespace-only description with media present. -/
theorem handleSubmit_validation_witness :
    jsTrim (RecorderState.description
        { recordedBlob := some { data := [1], type := "video/mp4" }
          recordedVideoUrl := some "blob:demo"
          description := "   "
          isSubmitting := false }) = "" ∧
    ((handleSubmit
        { recordedBlob := some { data := [1], type := "video/mp4" }
          recordedVideoUrl := some "blob:demo"
          description := "   "
          isSubmitting := false } SubmitOutcome.resolves).calledCallback = false ∧
     (handleSubmit
        { recordedBlob := some { data := [1], type := "video/mp4" }
          recordedVideoUrl := some "blob:demo"
          description := "   "
          isSubmitting := false } SubmitOutcome.resolves).callbackArgs = none ∧
     (handleSubmit
        { recordedBlob := some { data := [1], type := "video/mp4" }
          recordedVideoUrl := some "blob:demo"
          description := "   "
          isSubmitting := false } SubmitOutcome.resolves).toast =
       ToastKind.missingInformation) :=
  ⟨by decide, handleSubmit_validation _ _ (Or.inl (by decide))⟩

/-- C4: on a valid submit (media present, description trims non-empty)
the callback is invoked; if it resolves, the recorded blob, the
recorded-video url and the description are all cleared; if it rejects,
the blob, the url and the description are left exactly as before. -/
theorem handleSubmit_valid_outcomes (s : RecorderState)
    (h1 : s.recordedBlob ≠ none) (h2 : jsTrim s.description ≠ "") :
    ((handleSubmit s SubmitOutcome.resolves).state.recordedBlob = none ∧
     (handleSubmit s SubmitOutcome.resolves).state.recordedVideoUrl = none ∧
     (handleSubmit s SubmitOutcome.resolves).state.description = "" ∧
     (handleSubmit s SubmitOutcome.resolves).calledCallback = true) ∧
    ((handleSubmit s SubmitOutcome.rejects).state.recordedBlob = s.recordedBlob ∧
     (handleSubmit s SubmitOutcome.rejects).state.recordedVideoUrl = s.recordedVideoUrl ∧
     (handleSubmit s SubmitOutcome.rejects).state.description = s.description ∧
     (handleSubmit s SubmitOutcome.rejects).calledCallback = true) := by
  cases hb : s.recordedBlob with
  | none => exact absurd hb h1
  | some blob => simp [handleSubmit, hb, h2]

/-- Witness for C4 at a valid concrete state. -/
theorem handleSubmit_valid_outcomes_witness :
    (RecorderState.recordedBlob
        { recordedBlob := some { data := [1], type := "video/mp4" }
          recordedVideoUrl := some "blob:demo"
          description := " leaky faucet "
          isSubmitting := false } ≠ none) ∧
    jsTrim (RecorderState.description
        { recordedBlob := some { data := [1], type := "video/mp4" }
          recordedVideoUrl := some "blob:demo"
          description := " leaky faucet "
          isSubmitting := false }) ≠ "" ∧
    ((handleSubmit
        { recordedBlob := some { data := [1], type := "video/mp4" }
          recordedVideoUrl := some "blob:demo"
          description := " leaky faucet "
          isSubmitting := false } SubmitOutcome.resolves).state.recordedBlob = none ∧
     (handleSubmit
        { recordedBlob := some { data := [1], type := "video/mp4" }
          recordedVideoUrl := some "blob:demo"
          description := " leaky faucet "
          isSubmitting := false } SubmitOutcome.rejects).state.description =
       " leaky faucet ") :=
  ⟨by decide, by decide,
   (handleSubmit_valid_outcomes
      { recordedBlob := some { data := [1], type := "video/mp4" }
        recordedVideoUrl := some "blob:demo"
        description := " leaky faucet "
        isSubmitting := false } (by decide) (by decide)).1.1,
   (handleSubmit_valid_outcomes
      { recordedBlob := some { data := [1], type := "video/mp4" }
        recordedVideoUrl := some "blob:demo"
        description := " leaky faucet "
        isSubmitting := false } (by decide) (by decide)).2.2.2.1⟩

/-- C1: merging a successful upload result into the pending temp report,
as the dashboard's submission handler does, yields the report at the
head of the list with status completed, analysis fields taken from the
result's data, and id, description, submittedAt and videoSize unchanged
from the pending report. -/
theorem handleVideoSubmit_success_roundtrip (prev : List Report) (now blobSize : Nat)
    (description : String) (response : VideoAnalysisResponse) (catchNow : Nat)
    (h : response.success = true) :
    (mkTempReport now blobSize description).status = Status.pending ∧
    (handleVideoSubmit prev now blobSize description
        (UploadOutcome.resolved response) catchNow).head? =
      some (completeReport (mkTempReport now blobSize description) response) ∧
    (completeReport (mkTempReport now blobSize description) response).status =
      Status.completed ∧
    (completeReport (mkTempReport now blobSize description) response).analysis =
      some response.data.analysis ∧
    (completeReport (mkTempReport now blobSize description) response).analysisDate =
      some response.data.analysisDate ∧
    (completeReport (mkTempReport now blobSize description) response).id =
      (mkTempReport now blobSize description).id ∧
    (completeReport (mkTempReport now blobSize description) response).description =
      (mkTempReport now blobSize description).description ∧
    (completeReport (mkTempReport now blobSize description) response).submittedAt =
      (mkTempReport now blobSize description).submittedAt ∧
    (completeReport (mkTempReport now blobSize description) response).videoSize =
      (mkTempReport now blobSize description).videoSize := by
  refine ⟨rfl, ?_, rfl, rfl, rfl, rfl, rfl, rfl, rfl⟩
  simp [handleVideoSubmit, h, replaceById]

/-- Witness for C1 at a concrete successful response. -/
theorem handleVideoSubmit_success_roundtrip_witness :
    VideoAnalysisResponse.success
      { success := true
        message := "ok"
        data := { originalName := "video.mp4", fileSize := 3, fileSizeInMB := 1,
                  analysis := "broken hinge", analysisDate := "2024-01-01" } } = true ∧
    (handleVideoSubmit [] 1000 3 "cabinet door"
        (UploadOutcome.resolved
          { success := true
            message := "ok"
            data := { originalName := "video.mp4", fileSize := 3, fileSizeInMB := 1,
                      analysis := "broken hinge", analysisDate := "2024-01-01" } }) 1001).head? =
      some (completeReport (mkTempReport 1000 3 "cabinet door")
        { success := true
          message := "ok"
          data := { originalName := "video.mp4", fileSize := 3, fileSizeInMB := 1,
                    analysis := "broken hinge", analysisDate := "2024-01-01" } }) ∧
    (completeReport (mkTempReport 1000 3 "cabinet door")
        { success := true
          message := "ok"
          data := { originalName := "video.mp4", fileSize := 3, fileSizeInMB := 1,
                    analysis := "broken hinge", analysisDate := "2024-01-01" } }).status =
      Status.completed :=
  ⟨rfl,
   (handleVideoSubmit_success_roundtrip [] 1000 3 "cabinet door"
      { success := true
        message := "ok"
        data := { originalName := "video.mp4", fileSize := 3, fileSizeInMB := 1,
                  analysis := "broken hinge", analysisDate := "2024-01-01" } } 1001 rfl).2.1,
   (handleVideoSubmit_success_roundtrip [] 1000 3 "cabinet door"
      { success := true
        message := "ok"
        data := { originalName := "video.mp4", fileSize := 3, fileSizeInMB := 1,
                  analysis := "broken hinge", analysisDate := "2024-01-01" } } 1001 rfl).2.2.1⟩

/-- C2 evidence: when the upload throws, the catch block of
`handleVideoSubmit` compares each report id against a fresh
`Date.now().toString()` taken when the catch runs. At the concrete
failing input — submit at millisecond 1000, catch running at
millisecond 1001 — the temporary report is left in the list with status
pending, not reviewing, so the claimed transition to Reviewing does not
happen. -/
theorem handleVideoSubmit_threw_leaves_pending :
    handleVideoSubmit [] 1000 0 "leaky faucet" UploadOutcome.threw 1001 =
      [mkTempReport 1000 0 "leaky faucet"] ∧
    (mkTempReport 1000 0 "leaky faucet").status = Status.pending ∧
    Status.pending ≠ Status.reviewing := by
  refine ⟨?_, rfl, by decide⟩
  simp [handleVideoSubmit, updateStatusById, mkTempReport]
  decide

/-- The half of C2 that does hold on the code: when the upload resolves
at the transport level but the service reports `success = false`, the
temp report is updated in place to reviewing, nothing is removed, and
other reports keep their status. -/
theorem handleVideoSubmit_service_failure_reviewing (prev : List Report)
    (now blobSize : Nat) (description : String) (response : VideoAnalysisResponse)
    (catchNow : Nat) (h : response.success = false)
    (hfresh : ∀ r ∈ prev, r.id ≠ (mkTempReport now blobSize description).id) :
    handleVideoSubmit prev now blobSize description
        (UploadOutcome.resolved response) catchNow =
      { mkTempReport now blobSize description with status := Status.reviewing } :: prev := by
  simp only [handleVideoSubmit, h, Bool.false_eq_true, if_false, List.map_cons]
  rw [updateStatusById, if_pos rfl]
  congr 1
  induction prev with
  | nil => rfl
  | cons a l ih =>
    rw [List.map_cons, updateStatusById,
      if_neg (hfresh a (List.mem_cons_self a l)),
      ih (fun r hr => hfresh r (List.mem_cons_of_mem a hr))]

/-- Witness for the service-failure half of C2. -/
theorem handleVideoSubmit_service_failure_reviewing_witness :
    VideoAnalysisResponse.success
      { success := false
        message := "analysis failed"
        data := { originalName := "", fileSize := 0, fileSizeInMB := 0,
                  analysis := "", analysisDate := "" } } = false ∧
    handleVideoSubmit [] 1000 0 "leaky faucet"
        (UploadOutcome.resolved
          { success := false
            message := "analysis failed"
            data := { originalName := "", fileSize := 0, fileSizeInMB := 0,
                      analysis := "", analysisDate := "" } }) 1001 =
      [{ mkTempReport 1000 0 "leaky faucet" with status := Status.reviewing }] :=
  ⟨rfl,
   handleVideoSubmit_service_failure_reviewing [] 1000 0 "leaky faucet"
     { success := false
       message := "analysis failed"
       data := { originalName := "", fileSize := 0, fileSizeInMB := 0,
                 analysis := "", analysisDate := "" } } 1001 rfl
     (fun r hr => absurd hr (List.not_mem_nil r))⟩

/-! ## List invariants of the dashboard reports list -/

/-- The fields of a report that are fixed at creation time: id,
description, submittedAt and videoSize. -/
def reportKey (r : Report) : String × String × Nat × Rat :=
  (r.id, r.description, r.submittedAt, r.videoSize)

/-- The number of positions at which two report lists differ, compared
pointwise after zipping. -/
def diffCount (l1 l2 : List Report) : Nat :=
  (l1.zip l2).countP fun p => decide (p.1 ≠ p.2)

/-- A status update keeps the creation-time fields. -/
theorem reportKey_updateStatusById (tid : String) (st : Status) (r : Report) :
    reportKey (updateStatusById tid st r) = reportKey r := by
  unfold updateStatusById
  split <;> rfl

/-- Completing a report keeps its creation-time fields. -/
theorem reportKey_completeReport (tempReport : Report)
    (response : VideoAnalysisResponse) :
    reportKey (completeReport tempReport response) = reportKey tempReport := rfl

/-- Mapping an id-guarded update over a list none of whose ids match is
the identity. -/
theorem map_eq_self_of_id_ne (g : Report → Report) (tid : String)
    (hg : ∀ r, r.id ≠ tid → g r = r) (l : List Report)
    (hl : ∀ r ∈ l, r.id ≠ tid) :
    l.map g = l := by
  induction l with
  | nil => rfl
  | cons a l ih =>
    rw [List.map_cons, hg a (hl a (List.mem_cons_self a l)),
      ih (fun r hr => hl r (List.mem_cons_of_mem a hr))]

theorem diffCount_cons (a b : Report) (l1 l2 : List Report) :
    diffCount (a :: l1) (b :: l2) = diffCount l1 l2 + (if a = b then 0 else 1) := by
  by_cases h : a = b <;>
    simp [diffCount, List.zip_cons_cons, List.countP_cons, h]

theorem diffCount_self (l : List Report) : diffCount l l = 0 := by
  induction l with
  | nil => rfl
  | cons a l ih => rw [diffCount_cons, ih, if_pos rfl]

/-- Status updates preserve the creation-time fields across a whole map. -/
theorem map_reportKey_updateStatus (tid : String) (st : Status) (l : List Report) :
    (l.map (updateStatusById tid st)).map reportKey = l.map reportKey := by
  induction l with
  | nil => rfl
  | cons a l ih =>
    rw [List.map_cons, List.map_cons, List.map_cons,
      reportKey_updateStatusById, ih]

/-- A mapped status update changes at most as many positions as there are
reports carrying the matched id. -/
theorem diffCount_map_updateStatus_le (tid : String) (st : Status) (l : List Report) :
    diffCount l (l.map (updateStatusById tid st)) ≤
      l.countP fun r => decide (r.id = tid) := by
  induction l with
  | nil => exact Nat.le_refl 0
  | cons a l ih =>
    rw [List.map_cons, diffCount_cons, List.countP_cons]
    by_cases hid : a.id = tid
    · rw [decide_eq_true hid, if_pos rfl]
      have h2 : (if a = updateStatusById tid st a then 0 else 1) ≤ 1 := by
        split <;> omega
      omega
    · have hga : updateStatusById tid st a = a := by
        unfold updateStatusById
        rw [if_neg hid]
      rw [hga, if_pos rfl, decide_eq_false hid]
      simpa using ih

/-- With pairwise-distinct ids, at most one report carries a given id. -/
theorem countP_id_le_one (tid : String) (l : List Report)
    (h : (l.map Report.id).Nodup) :
    (l.countP fun r => decide (r.id = tid)) ≤ 1 := by
  induction l with
  | nil => exact Nat.zero_le 1
  | cons a l ih =>
    rw [List.map_cons, List.nodup_cons] at h
    rw [List.countP_cons]
    by_cases hid : a.id = tid
    · have hz : (l.countP fun r => decide (r.id = tid)) = 0 := by
        rw [List.countP_eq_zero]
        intro r hr
        simp only [decide_eq_true_eq]
        intro hrid
        apply h.1
        rw [hid, ← hrid]
        exact List.mem_map_of_mem Report.id hr
      simp [hz, decide_eq_true hid]
    · rw [decide_eq_false hid]
      simpa using ih h.2

/-- C10: one submission attempt, whatever its outcome, prepends one report
created with status pending and then maps the list, replacing entries
matched by id with copies differing only in status, analysis and
analysisDate. Provided the new id is fresh and the existing ids are
pairwise distinct: the length grows by exactly one (so no report is ever
removed and the length never decreases), every report keeps its id,
description, submittedAt and videoSize, and at most one position of the
prepended list is altered. -/
theorem handleVideoSubmit_list_invariants (prev : List Report) (now blobSize : Nat)
    (description : String) (outcome : UploadOutcome) (catchNow : Nat)
    (hfresh : (mkTempReport now blobSize description).id ∉ prev.map Report.id)
    (hnodup : (prev.map Report.id).Nodup) :
    (mkTempReport now blobSize description).status = Status.pending ∧
    (handleVideoSubmit prev now blobSize description outcome catchNow).length =
      prev.length + 1 ∧
    (handleVideoSubmit prev now blobSize description outcome catchNow).map reportKey =
      reportKey (mkTempReport now blobSize description) :: prev.map reportKey ∧
    diffCount (mkTempReport now blobSize description :: prev)
      (handleVideoSubmit prev now blobSize description outcome catchNow) ≤ 1 := by
  have hprev : ∀ r ∈ prev, r.id ≠ (mkTempReport now blobSize description).id := by
    intro r hr he
    exact hfresh (he ▸ List.mem_map_of_mem Report.id hr)
  cases outcome with
  | resolved response =>
    cases hval : response.success with
    | true =>
      have hres : handleVideoSubmit prev now blobSize description
          (UploadOutcome.resolved response) catchNow =
          completeReport (mkTempReport now blobSize description) response :: prev := by
        unfold handleVideoSubmit
        dsimp only
        rw [hval, if_pos rfl, List.map_cons]
        unfold replaceById
        rw [if_pos rfl]
        congr 1
        exact map_eq_self_of_id_ne _ _
          (fun r hrne => if_neg hrne) prev hprev
      refine ⟨rfl, ?_, ?_, ?_⟩
      · rw [hres, List.length_cons]
      · rw [hres, List.map_cons, reportKey_completeReport]
      · rw [hres, diffCount_cons, diffCount_self]
        split <;> omega
    | false =>
      have hres : handleVideoSubmit prev now blobSize description
          (UploadOutcome.resolved response) catchNow =
          updateStatusById (mkTempReport now blobSize description).id Status.reviewing
            (mkTempReport now blobSize description) :: prev := by
        unfold handleVideoSubmit
        dsimp only
        rw [hval, if_neg (by simp), List.map_cons]
        congr 1
        exact map_eq_self_of_id_ne _ _
          (fun r hrne => by unfold updateStatusById; rw [if_neg hrne]) prev hprev
      refine ⟨rfl, ?_, ?_, ?_⟩
      · rw [hres, List.length_cons]
      · rw [hres, List.map_cons, reportKey_updateStatusById]
      · rw [hres, diffCount_cons, diffCount_self]
        split <;> omega
  | threw =>
    have hres : handleVideoSubmit prev now blobSize description
        UploadOutcome.threw catchNow =
        (mkTempReport now blobSize description :: prev).map
          (updateStatusById (toString catchNow) Status.reviewing) := rfl
    have hnodup2 : ((mkTempReport now blobSize description :: prev).map
        Report.id).Nodup := by
      rw [List.map_cons, List.nodup_cons]
      exact ⟨hfresh, hnodup⟩
    refine ⟨rfl, ?_, ?_, ?_⟩
    · rw [hres, List.length_map, List.length_cons]
    · rw [hres, map_reportKey_updateStatus, List.map_cons]
    · rw [hres]
      exact Nat.le_trans
        (diffCount_map_updateStatus_le (toString catchNow) Status.reviewing
          (mkTempReport now blobSize description :: prev))
        (countP_id_le_one (toString catchNow) _ hnodup2)

/-- Witness for C10: a prior report with id 999, a fresh submit at
millisecond 1000 whose upload throws at millisecond 1001. -/
theorem handleVideoSubmit_list_invariants_witness :
    ((mkTempReport 1000 0 "water leak").id ∉
      ([{ id := "999", description := "prior", status := Status.completed,
          submittedAt := 999, videoSize := 2, analysis := some "a",
          analysisDate := some "d" }] : List Report).map Report.id) ∧
    ((([{ id := "999", description := "prior", status := Status.completed,
          submittedAt := 999, videoSize := 2, analysis := some "a",
          analysisDate := some "d" }] : List Report).map Report.id).Nodup) ∧
    ((mkTempReport 1000 0 "water leak").status = Status.pending ∧
     (handleVideoSubmit
        ([{ id := "999", description := "prior", status := Status.completed,
            submittedAt := 999, videoSize := 2, analysis := some "a",
            analysisDate := some "d" }] : List Report) 1000 0 "water leak"
        UploadOutcome.threw 1001).length =
       ([{ id := "999", description := "prior", status := Status.completed,
           submittedAt := 999, videoSize := 2, analysis := some "a",
           analysisDate := some "d" }] : List Report).length + 1 ∧
     (handleVideoSubmit
        ([{ id := "999", description := "prior", status := Status.completed,
            submittedAt := 999, videoSize := 2, analysis := some "a",
            analysisDate := some "d" }] : List Report) 1000 0 "water leak"
        UploadOutcome.threw 1001).map reportKey =
       reportKey (mkTempReport 1000 0 "water leak") ::
         ([{ id := "999", description := "prior", status := Status.completed,
             submittedAt := 999, videoSize := 2, analysis := some "a",
             analysisDate := some "d" }] : List Report).map reportKey ∧
     diffCount (mkTempReport 1000 0 "water leak" ::
        ([{ id := "999", description := "prior", status := Status.completed,
            submittedAt := 999, videoSize := 2, analysis := some "a",
            analysisDate := some "d" }] : List Report))
       (handleVideoSubmit
         ([{ id := "999", description := "prior", status := Status.completed,
             submittedAt := 999, videoSize := 2, analysis := some "a",
             analysisDate := some "d" }] : List Report) 1000 0 "water leak"
         UploadOutcome.threw 1001) ≤ 1) :=
  ⟨by decide, by decide,
   handleVideoSubmit_list_invariants
     ([{ id := "999", description := "prior", status := Status.completed,
         submittedAt := 999, videoSize := 2, analysis := some "a",
         analysisDate := some "d" }] : List Report) 1000 0 "water leak"
     UploadOutcome.threw 1001 (by decide) (by decide)⟩
